import Mathlib

/-!
Shallow embedding of the core of the BCA-Mutation-Checker repository:
the error classifier (src/error/error-handler.ts), the rotation pools
(src/rotation/proxy-rotator.ts and friends), the webhook client
(src/webhook/webhook-client.ts) and the scheduler (src/scheduler/scheduler.ts).
Strings are modelled as lists of characters; JavaScript string `includes`
becomes an executable infix test.  Each definition is translated from the
TypeScript source it names.
-/

namespace BCA

/-- Strings of the model: lists of characters (already lower-cased where the
source lower-cases). -/
abbrev Str := List Char

/-- Test whether the second list is a prefix of the first argument order:
prefixCh needle hay = true iff needle is a prefix of hay. -/
def prefixCh : Str → Str → Bool
  | [], _ => true
  | _ :: _, [] => false
  | a :: as, b :: bs => a == b && prefixCh as bs

/-- JavaScript String.prototype.includes: strIncludes hay needle is true iff
needle occurs as a contiguous substring of hay. -/
def strIncludes : Str → Str → Bool
  | [], needle => needle.isEmpty
  | h :: t, needle => prefixCh needle (h :: t) || strIncludes t needle

/-- Error categories (src/error/types.ts, enum ErrorCategory).  The spec calls
the browser category "ExecutionEnvironment", the webhook category "Delivery"
and the config category "Configuration". -/
inductive ErrorCategory where
  | authentication
  | network
  | browser
  | parsing
  | webhook
  | config
deriving DecidableEq

/-- Error actions (src/error/types.ts, type ErrorAction).  Delays are in
milliseconds as in the source. -/
inductive ErrorAction where
  | retry (delay : Nat)
  | skip
  | fallback (alternative : Str)
  | fatal (exitCode : Nat)
deriving DecidableEq

/-- Attempt context (src/error/types.ts, interface ErrorContext); only the
fields the classifier reads. -/
structure ErrorContext where
  attempt : Nat
  maxAttempts : Nat
deriving DecidableEq

/-- ErrorHandler.categorizeError (src/error/error-handler.ts): ordered
substring tests over the lower-cased message and name, first match wins,
defaulting to the browser category. -/
def categorizeError (message name : Str) : ErrorCategory :=
  if strIncludes message "authentication".data ||
     strIncludes message "login".data ||
     strIncludes message "credential".data ||
     strIncludes message "unauthorized".data ||
     strIncludes message "401".data then
    .authentication
  else if strIncludes message "network".data ||
     strIncludes message "timeout".data ||
     strIncludes message "econnrefused".data ||
     strIncludes message "enotfound".data ||
     strIncludes message "dns".data ||
     strIncludes message "proxy".data ||
     strIncludes name "networkerror".data then
    .network
  else if strIncludes message "browser".data ||
     strIncludes message "page".data ||
     strIncludes message "navigation".data ||
     strIncludes message "element not found".data ||
     strIncludes message "selector".data ||
     strIncludes message "playwright".data then
    .browser
  else if strIncludes message "parse".data ||
     strIncludes message "invalid date".data ||
     strIncludes message "invalid amount".data ||
     strIncludes message "invalid transaction type".data ||
     strIncludes message "missing required fields".data then
    .parsing
  else if strIncludes message "webhook".data ||
     strIncludes message "http request failed".data ||
     (strIncludes message "fetch".data && strIncludes message "failed".data) then
    .webhook
  else if strIncludes message "config".data ||
     strIncludes message "validation".data ||
     strIncludes message "required field".data then
    .config
  else
    .browser

/-- ErrorHandler.isRecoverable (src/error/error-handler.ts). -/
def isRecoverable (category : ErrorCategory) (ctx : ErrorContext) : Bool :=
  if category = .config then false
  else if ctx.attempt ≥ ctx.maxAttempts then false
  else true

/-- ErrorHandler.determineAction (src/error/error-handler.ts). -/
def determineAction (category : ErrorCategory) (ctx : ErrorContext)
    (recoverable : Bool) : ErrorAction :=
  if !recoverable then
    if category = .config then .fatal 1 else .skip
  else
    match category with
    | .authentication => .retry 30000
    | .network => .retry (min (2 ^ ctx.attempt * 1000) 60000)
    | .browser =>
        if ctx.attempt < 3 then .fallback "next-browser".data else .skip
    | .parsing => .skip
    | .webhook => .retry (min (2 ^ ctx.attempt * 1000) 30000)
    | .config => .skip

/-- ErrorHandler.handleError (src/error/error-handler.ts), restricted to the
action it returns: categorize, decide recoverability, determine the action. -/
def handleError (message name : Str) (ctx : ErrorContext) : ErrorAction :=
  determineAction (categorizeError message name) ctx
    (isRecoverable (categorizeError message name) ctx)

/-- Test whether any marker of the list occurs in the description. -/
def anyMarker (message : Str) (markers : List String) : Bool :=
  markers.any (fun s => strIncludes message s.data)

/-- Category assignment exactly as claim C4 words it: the claimed marker
lists applied to the lower-cased description in the claimed priority order,
first match wins, ExecutionEnvironment (browser) when nothing matches.
Defined from the claim text, to be compared with categorizeError. -/
def categorizeClaimC4 (message : Str) : ErrorCategory :=
  if anyMarker message
      ["authentication", "login", "credential", "unauthorized", "401"] then
    .authentication
  else if anyMarker message
      ["network", "timeout", "connection refused", "not found", "dns",
       "proxy"] then
    .network
  else if anyMarker message
      ["browser", "page", "navigation", "element not found", "selector"] then
    .browser
  else if anyMarker message
      ["parse", "invalid date", "invalid amount", "invalid transaction type",
       "missing required fields"] then
    .parsing
  else if anyMarker message ["webhook", "http request failed"] ||
      (strIncludes message "fetch".data && strIncludes message "failed".data) then
    .webhook
  else if anyMarker message ["config", "validation", "required field"] then
    .config
  else
    .browser

/-- Category assignment of the amended claim C4: as the claim, but with the
code's actual Network markers econnrefused and enotfound in place of the
phrases connection refused and not found, and with playwright as an
additional ExecutionEnvironment (browser) marker. -/
def categorizeAmendedC4 (message : Str) : ErrorCategory :=
  if anyMarker message
      ["authentication", "login", "credential", "unauthorized", "401"] then
    .authentication
  else if anyMarker message
      ["network", "timeout", "econnrefused", "enotfound", "dns", "proxy"] then
    .network
  else if anyMarker message
      ["browser", "page", "navigation", "element not found", "selector",
       "playwright"] then
    .browser
  else if anyMarker message
      ["parse", "invalid date", "invalid amount", "invalid transaction type",
       "missing required fields"] then
    .parsing
  else if anyMarker message ["webhook", "http request failed"] ||
      (strIncludes message "fetch".data && strIncludes message "failed".data) then
    .webhook
  else if anyMarker message ["config", "validation", "required field"] then
    .config
  else
    .browser

/-- Prescribed action exactly as claim C5 words it: recoverable iff the
category is not Configuration and attemptNumber is below maxAttempts;
non-recoverable Configuration is Fatal with exit code 1, any other
non-recoverable case is Skip; recoverable Authentication retries after a
fixed 30 seconds, Network after min(2^attempt, 60) seconds, Delivery
(webhook) after min(2^attempt, 30) seconds, ExecutionEnvironment (browser)
falls back to the next environment type while attempt < 3 and skips
otherwise, and Parsing skips.  Delays are in milliseconds (seconds times
1000); the fallback alternative string is the code's name for the next
environment type.  Defined from the claim text, to be compared with
determineAction. -/
def actionClaimC5 (category : ErrorCategory) (ctx : ErrorContext) : ErrorAction :=
  if category ≠ ErrorCategory.config ∧ ctx.attempt < ctx.maxAttempts then
    match category with
    | .authentication => .retry (30 * 1000)
    | .network => .retry (min (2 ^ ctx.attempt) 60 * 1000)
    | .browser =>
        if ctx.attempt < 3 then .fallback "next-browser".data else .skip
    | .parsing => .skip
    | .webhook => .retry (min (2 ^ ctx.attempt) 30 * 1000)
    | .config => .skip
  else if category = ErrorCategory.config then .fatal 1
  else .skip

/-- Browser types (src/types/config.ts, type BrowserType). -/
inductive BrowserType where
  | chromium
  | chrome
  | edge
  | brave
deriving DecidableEq

/-- BrowserPool state (src/rotation/browser-pool.ts): item list plus cursor. -/
structure BrowserPool where
  browsers : List BrowserType
  currentIndex : Nat
deriving DecidableEq

/-- BrowserPool constructor: throws when the list is empty, otherwise starts
the cursor at 0. -/
def mkBrowserPool (browsers : List BrowserType) : Except Str BrowserPool :=
  if browsers.isEmpty then
    .error "Browser pool must have at least one browser".data
  else
    .ok ⟨browsers, 0⟩

/-- BrowserPool.getNextBrowser: return the item at the cursor and advance the
cursor modulo the pool size.  The source indexes the array directly under the
invariant that the cursor is in bounds; the model reads with a default that
is never used while the invariant holds. -/
def BrowserPool.getNextBrowser (p : BrowserPool) : BrowserType × BrowserPool :=
  (p.browsers.getD p.currentIndex .chromium,
   ⟨p.browsers, (p.currentIndex + 1) % p.browsers.length⟩)

/-- BrowserPool.reset: rewind the cursor to 0. -/
def BrowserPool.reset (p : BrowserPool) : BrowserPool :=
  ⟨p.browsers, 0⟩

/-- Output of the k-th call (0-indexed) to getNextBrowser starting from
state p. -/
def browserNth (p : BrowserPool) : Nat → BrowserType
  | 0 => p.getNextBrowser.1
  | k + 1 => browserNth p.getNextBrowser.2 k

/-- Default user agents per browser type (src/config/defaults.ts,
DEFAULT_USER_AGENTS); every list has exactly one entry. -/
def DEFAULT_USER_AGENTS (bt : BrowserType) : List Str :=
  match bt with
  | .chromium => [("Mozilla/5.0 (Windows NT 10.0; Win64; x64) " ++
      "AppleWebKit/537.36 (KHTML, like Gecko) Chrome/120.0.0.0 " ++
      "Safari/537.36").data]
  | .chrome => [("Mozilla/5.0 (Windows NT 10.0; Win64; x64) " ++
      "AppleWebKit/537.36 (KHTML, like Gecko) Chrome/120.0.0.0 " ++
      "Safari/537.36").data]
  | .edge => [("Mozilla/5.0 (Windows NT 10.0; Win64; x64) " ++
      "AppleWebKit/537.36 (KHTML, like Gecko) Chrome/120.0.0.0 " ++
      "Safari/537.36 Edg/120.0.0.0").data]
  | .brave => [("Mozilla/5.0 (Windows NT 10.0; Win64; x64) " ++
      "AppleWebKit/537.36 (KHTML, like Gecko) Chrome/120.0.0.0 " ++
      "Safari/537.36").data]

/-- UserAgentRotator state (src/rotation/user-agent-rotator.ts). -/
structure UserAgentRotator where
  userAgents : List Str
  currentIndex : Nat
deriving DecidableEq

/-- UserAgentRotator constructor: keeps the supplied list when it is present
and non-empty, otherwise stores the empty list (default mode). -/
def mkUserAgentRotator (userAgents : Option (List Str)) : UserAgentRotator :=
  match userAgents with
  | some l => if l.length > 0 then ⟨l, 0⟩ else ⟨[], 0⟩
  | none => ⟨[], 0⟩

/-- UserAgentRotator.getDefaultUserAgent: first default for the browser type,
falling back to the chromium default when the type has no entry (all types
have one, so the fallback branch is not taken for any BrowserType). -/
def getDefaultUserAgent (bt : BrowserType) : Str :=
  if (DEFAULT_USER_AGENTS bt).isEmpty then
    (DEFAULT_USER_AGENTS .chromium).getD 0 []
  else
    (DEFAULT_USER_AGENTS bt).getD 0 []

/-- UserAgentRotator.getNextUserAgent: with custom user agents configured,
round-robin over them; otherwise hand out the default for the browser type
without touching the cursor. -/
def UserAgentRotator.getNextUserAgent (r : UserAgentRotator)
    (bt : BrowserType) : Str × UserAgentRotator :=
  if r.userAgents.length > 0 then
    (r.userAgents.getD r.currentIndex [],
     ⟨r.userAgents, (r.currentIndex + 1) % r.userAgents.length⟩)
  else
    (getDefaultUserAgent bt, r)

/-- UserAgentRotator.reset: rewind the cursor to 0. -/
def UserAgentRotator.reset (r : UserAgentRotator) : UserAgentRotator :=
  ⟨r.userAgents, 0⟩

/-- Output of the k-th call (0-indexed) to getNextUserAgent starting from
state r, with a fixed browser type. -/
def uaNth (r : UserAgentRotator) (bt : BrowserType) : Nat → Str
  | 0 => (r.getNextUserAgent bt).1
  | k + 1 => uaNth (r.getNextUserAgent bt).2 bt k

/-- Proxy configuration (src/types/config.ts, interface ProxyConfig); only
the fields the rotator's key derivation reads: server plus optional
username. -/
structure ProxyConfig where
  server : Str
  username : Option Str
deriving DecidableEq

/-- ProxyRotator.getProxyKey: derived identity, server plus a colon plus the
username (a missing or empty username is the empty string, as the source's
logical-or with the empty string yields). -/
def getProxyKey (p : ProxyConfig) : Str :=
  p.server ++ ':' :: (match p.username with
    | some u => if u.isEmpty then [] else u
    | none => [])

/-- ProxyRotator state (src/rotation/proxy-rotator.ts): item list, cursor and
the set of failed proxy keys. -/
structure ProxyRotator where
  proxies : List ProxyConfig
  currentIndex : Nat
  failedProxies : List Str
deriving DecidableEq

/-- ProxyRotator constructor: copies the list, cursor 0, no failures. -/
def mkProxyRotator (proxies : List ProxyConfig) : ProxyRotator :=
  ⟨proxies, 0, []⟩

/-- Scan of the while loop inside getNextProxy: read the proxy at the
cursor, advance the cursor modulo the pool size, return the proxy if its key
is not failed, otherwise continue; at most fuel steps (the source bounds
attempts by the pool size). -/
def scanNext (proxies : List ProxyConfig) (failed : List Str) :
    Nat → Nat → Option ProxyConfig × Nat
  | idx, 0 => (none, idx)
  | idx, fuel + 1 =>
      let p := proxies.getD idx ⟨[], none⟩
      let idx' := (idx + 1) % proxies.length
      if getProxyKey p ∈ failed then scanNext proxies failed idx' fuel
      else (some p, idx')

/-- ProxyRotator.getNextProxy: null for an empty pool; null when no proxy is
available (all keys failed); otherwise the bounded forward scan from the
cursor. -/
def ProxyRotator.getNextProxy (r : ProxyRotator) :
    Option ProxyConfig × ProxyRotator :=
  if r.proxies.isEmpty then (none, r)
  else if (r.proxies.filter
      (fun p => decide (getProxyKey p ∉ r.failedProxies))).isEmpty then
    (none, r)
  else
    let s := scanNext r.proxies r.failedProxies r.currentIndex
      r.proxies.length
    (s.1, ⟨r.proxies, s.2, r.failedProxies⟩)

/-- ProxyRotator.markProxyFailed: add the derived key to the failed set
(set insertion, hence idempotent). -/
def ProxyRotator.markProxyFailed (r : ProxyRotator) (p : ProxyConfig) :
    ProxyRotator :=
  if getProxyKey p ∈ r.failedProxies then r
  else ⟨r.proxies, r.currentIndex, getProxyKey p :: r.failedProxies⟩

/-- ProxyRotator.resetFailures: clear the failed set. -/
def ProxyRotator.resetFailures (r : ProxyRotator) : ProxyRotator :=
  ⟨r.proxies, r.currentIndex, []⟩

/-- Operations a client may interleave between marking a proxy failed and a
later selection, short of resetFailures: further selections and further
failure marks. -/
inductive RotOp where
  | getNext
  | markFailed (p : ProxyConfig)

/-- State reached by one rotation-pool operation. -/
def applyRotOp (r : ProxyRotator) : RotOp → ProxyRotator
  | .getNext => r.getNextProxy.2
  | .markFailed p => r.markProxyFailed p

/-- State reached by a sequence of rotation-pool operations. -/
def runRotOps (r : ProxyRotator) : List RotOp → ProxyRotator
  | [] => r
  | op :: ops => runRotOps (applyRotOp r op) ops

/-- Observable events of one sendWithRetry run: a delivery attempt with its
1-based number, or a backoff sleep in milliseconds. -/
inductive WebhookEvent where
  | attempt (n : Nat)
  | sleep (ms : Nat)
deriving DecidableEq

/-- Data of the failure thrown after exhausting all attempts (the attempt
count and the last error message the template string reports). -/
structure WebhookFailure where
  attempts : Nat
  lastError : Option Str
deriving DecidableEq

/-- WebhookClient.calculateBackoff (src/webhook/webhook-client.ts):
exponential backoff, 1 s, 2 s, 4 s, ... in milliseconds. -/
def calculateBackoff (attempt : Nat) : Nat :=
  2 ^ (attempt - 1) * 1000

/-- Loop of WebhookClient.sendWithRetry over the list of remaining 1-based
attempt numbers; outcome gives each attempt's failure message (none = the
endpoint acknowledged success).  On success the loop returns at once; on
failure it sleeps when further attempts remain; with the list exhausted it
throws the failure with the attempt count and last error. -/
def runAttempts (outcome : Nat → Option Str) (attempts : Nat) :
    List Nat → Option Str → List WebhookEvent × Except WebhookFailure Unit
  | [], last => ([], .error ⟨attempts, last⟩)
  | a :: rest, last =>
      match outcome a with
      | none => ([.attempt a], .ok ())
      | some e =>
          let r := runAttempts outcome attempts rest (some e)
          (.attempt a ::
            (if a < attempts then .sleep (calculateBackoff a) :: r.1 else r.1),
           r.2)

/-- WebhookClient.sendWithRetry: the for loop runs attempt = 1 to attempts
inclusive. -/
def sendWithRetry (outcome : Nat → Option Str) (attempts : Nat) :
    List WebhookEvent × Except WebhookFailure Unit :=
  runAttempts outcome attempts (List.range' 1 attempts) none

/-- Webhook configuration (src/webhook/types.ts): url plus optional retry
attempt count. -/
structure WebhookConfig where
  url : Str
  retryAttempts : Option Nat
deriving DecidableEq

/-- Attempt bound used by WebhookClient.send: the configured retryAttempts,
with 3 substituted for any falsy value (absent or 0), as the source's
logical-or does. -/
def effectiveRetryAttempts (cfg : WebhookConfig) : Nat :=
  match cfg.retryAttempts with
  | some n => if n = 0 then 3 else n
  | none => 3

/-- WebhookClient.send: sendWithRetry at the effective attempt bound. -/
def send (outcome : Nat → Option Str) (cfg : WebhookConfig) :
    List WebhookEvent × Except WebhookFailure Unit :=
  sendWithRetry outcome (effectiveRetryAttempts cfg)

/-- Event trace claim C6 predicts for attempts 1..upto of a run bounded by
total attempts: each attempt event, followed by a sleep of 2^(attempt-1)
seconds when the attempt is not the last permitted one.  Defined from the
claim text. -/
def claimTraceC6 (upto total : Nat) : List WebhookEvent :=
  (List.range' 1 upto).flatMap (fun a =>
    WebhookEvent.attempt a ::
      if a < total then [WebhookEvent.sleep (2 ^ (a - 1) * 1000)] else [])

/-- Test for an attempt event. -/
def isAttemptEv : WebhookEvent → Bool
  | .attempt _ => true
  | .sleep _ => false

/-- Test for a sleep event. -/
def isSleepEv : WebhookEvent → Bool
  | .attempt _ => false
  | .sleep _ => true

/-- Check result (src/scheduler/types.ts, interface CheckResult): success
flag plus optional error message; the model leaves out the wall-clock
timestamp and the optional mutation count. -/
structure CheckResult where
  success : Bool
  error : Option Str
deriving DecidableEq

/-- Synchronous guard prefix of Scheduler.executeCheck: with a check in
progress, return the already-in-progress failure at once, leaving the flag
alone and never reaching the body; otherwise set the flag and enter the
body.  The whole prefix runs before any suspension point, so on the single
JavaScript execution context it is atomic.  Result: the flag afterwards,
and some rejection result, or none for the call that enters the body. -/
def executeCheckEnter (checkInProgress : Bool) : Bool × Option CheckResult :=
  if checkInProgress then
    (checkInProgress, some ⟨false, some "Check already in progress".data⟩)
  else
    (true, none)

/-- Exit path of Scheduler.executeCheck for the call that entered the body:
try/catch converts the body outcome into the returned CheckResult, and the
finally block clears the in-progress flag unconditionally.  Result: the
CheckResult and the flag after exit. -/
def executeCheckExit (bodyResult : Except Str Unit) : CheckResult × Bool :=
  match bodyResult with
  | .ok _ => (⟨true, none⟩, false)
  | .error e => (⟨false, some e⟩, false)

/-- Guard outcomes of n consecutive executeCheck invocations against one
engine: the flag afterwards, and per invocation none when it entered the
body or some r when it was rejected immediately with r. -/
def startMany (flag : Bool) : Nat → Bool × List (Option CheckResult)
  | 0 => (flag, [])
  | n + 1 =>
      let s := executeCheckEnter flag
      let rest := startMany s.1 n
      (rest.1, s.2 :: rest.2)

/-- Outcomes of the external collaborator steps of one cycle as performCheck
observes them: each protected step either succeeds or throws with a message.
parsedCount is the size of the parsed batch — DataParser.parseAll absorbs
per-record failures and always returns the parsed subset. -/
structure CollabOutcomes where
  createSession : Except Str Unit
  login : Except Str Unit
  navigate : Except Str Unit
  scrape : Except Str Unit
  parsedCount : Nat
  webhookConfigured : Bool
  webhookSend : Except Str Unit
  logout : Except Str Unit

/-- Steps of one cycle the model traces, in execution order. -/
inductive Step where
  | rotation
  | createSession
  | login
  | navigate
  | scrape
  | parse
  | webhookSend
  | handleWebhookError
  | logout
  | handleCheckError
  | closeSession
deriving DecidableEq

/-- Scheduler.performCheck (src/scheduler/scheduler.ts): rotation draws,
session creation, login, navigation, scraping, parsing, conditional webhook
delivery guarded by its own try/catch that hands the failure to the error
handler and continues, logout, an outer catch that classifies a failure of
the protected steps and re-throws it, and a finally block that closes the
session whenever one was created.  The error-handler invocation (and the
conditional proxy-failure marking inside it) is summarised by the
handleCheckError and handleWebhookError trace steps; the result is the
trace of executed steps and performCheck's outcome. -/
def performCheck (c : CollabOutcomes) : List Step × Except Str Unit :=
  match c.createSession with
  | .error e => ([.rotation, .createSession, .handleCheckError], .error e)
  | .ok _ =>
      let inner : List Step × Except Str Unit :=
        match c.login with
        | .error e => ([.login, .handleCheckError], .error e)
        | .ok _ =>
            match c.navigate with
            | .error e => ([.login, .navigate, .handleCheckError], .error e)
            | .ok _ =>
                match c.scrape with
                | .error e =>
                    ([.login, .navigate, .scrape, .handleCheckError],
                     .error e)
                | .ok _ =>
                    let wh : List Step :=
                      if c.webhookConfigured ∧ 0 < c.parsedCount then
                        match c.webhookSend with
                        | .ok _ => [.webhookSend]
                        | .error _ => [.webhookSend, .handleWebhookError]
                      else []
                    match c.logout with
                    | .error e =>
                        ([.login, .navigate, .scrape, .parse] ++ wh ++
                          [.logout, .handleCheckError], .error e)
                    | .ok _ =>
                        ([.login, .navigate, .scrape, .parse] ++ wh ++
                          [.logout], .ok ())
      ([.rotation, .createSession] ++ inner.1 ++ [.closeSession], inner.2)

/-- Scheduler configuration (src/scheduler/types.ts): requested interval
and optional minimum, in milliseconds. -/
structure SchedulerConfig where
  interval : Nat
  minInterval : Option Nat
deriving DecidableEq

/-- System configuration slice the Scheduler constructor reads
(src/types/config.ts): browser list, optional custom user agents, proxy
settings, optional webhook settings. -/
structure SystemConfig where
  browsers : List BrowserType
  userAgents : Option (List Str)
  proxyEnabled : Bool
  proxyServers : List ProxyConfig
  webhook : Option WebhookConfig
deriving DecidableEq

/-- Effective minimum interval of the Scheduler constructor: the configured
minInterval with the 300000 ms default substituted for a falsy value
(absent or 0), as the source's logical-or does. -/
def effectiveMinInterval (cfg : SchedulerConfig) : Nat :=
  match cfg.minInterval with
  | some m => if m = 0 then 300000 else m
  | none => 300000

/-- Configuration errors the Scheduler constructor can raise. -/
inductive ConfigError where
  | intervalTooSmall (minInterval : Nat)
  | emptyBrowserPool
deriving DecidableEq

/-- Scheduler state assembled by the constructor (the fields the model
tracks). -/
structure Scheduler where
  config : SchedulerConfig
  browserPool : BrowserPool
  userAgentRotator : UserAgentRotator
  proxyRotator : Option ProxyRotator
  webhookClient : Option WebhookConfig
deriving DecidableEq

/-- Scheduler constructor (src/scheduler/scheduler.ts): validate the
interval against the effective minimum, then build the component instances;
BrowserPool construction throws when the browser list is empty; the proxy
rotator exists only when proxying is enabled with a non-empty server list;
the webhook client only when a webhook is configured. -/
def mkScheduler (cfg : SchedulerConfig) (sys : SystemConfig) :
    Except ConfigError Scheduler :=
  if cfg.interval < effectiveMinInterval cfg then
    .error (.intervalTooSmall (effectiveMinInterval cfg))
  else
    match mkBrowserPool sys.browsers with
    | .error _ => .error .emptyBrowserPool
    | .ok bp =>
        .ok ⟨cfg, bp, mkUserAgentRotator sys.userAgents,
          if sys.proxyEnabled ∧ sys.proxyServers ≠ [] then
            some (mkProxyRotator sys.proxyServers)
          else none,
          sys.webhook⟩

/-- Test for the ok constructor of Except. -/
def exceptIsOk {ε α : Type} : Except ε α → Bool
  | .ok _ => true
  | .error _ => false

/-- Scheduler.scheduleNextCheck (src/scheduler/scheduler.ts): with the
stopped flag set, return without arming a timer; otherwise arm a timer that
fires delay milliseconds after the moment of this scheduling decision.
Result: the absolute fire time of the armed timer, none when stopped. -/
def scheduleNextCheck (stopped : Bool) (now delay : Nat) : Option Nat :=
  if stopped then none else some (now + delay)

/-- Cycle fire times of a run that is never stopped: the timer callback at a
fire time awaits executeCheck to completion (the cycle's duration) and then
makes the next scheduling decision with the configured interval as the
delay.  durations lists the duration of each cycle that completes and
reschedules; the trace ends at the first fire with no recorded duration. -/
def fireTimesFrom (interval : Nat) : Nat → List Nat → List Nat
  | fire, [] => [fire]
  | fire, d :: ds =>
      match scheduleNextCheck false (fire + d) interval with
      | some next => fire :: fireTimesFrom interval next ds
      | none => [fire]

/-- Scheduler.start then the timer loop: start makes an immediate first
scheduling decision with zero delay at time t0 (scheduleNextCheck 0). -/
def startFireTimes (interval t0 : Nat) (durations : List Nat) : List Nat :=
  match scheduleNextCheck false t0 0 with
  | some firstFire => fireTimesFrom interval firstFire durations
  | none => []

/-- Fire times claim C9 predicts: the first cycle at t0 with zero delay and
each subsequent cycle exactly interval after the previous cycle was
scheduled to run, regardless of execution durations.  Defined from the
claim text. -/
def claimFireTimesC9 (interval : Nat) : Nat → List Nat → List Nat
  | fire, [] => [fire]
  | fire, _ :: ds => fire :: claimFireTimesC9 interval (fire + interval) ds

/-- Fire times of the amended claim C9: the first cycle at t0 with zero
delay and each subsequent cycle exactly interval after the previous cycle's
execution completed (the moment of the rescheduling decision). -/
def amendedFireTimesC9 (interval : Nat) : Nat → List Nat → List Nat
  | fire, [] => [fire]
  | fire, d :: ds =>
      fire :: amendedFireTimesC9 interval (fire + d + interval) ds

end BCA

namespace BCA

/-- Round-robin characterization of browserNth from any in-bounds cursor. -/
theorem browserNth_eq (l : List BrowserType) (k i : Nat) (hi : i < l.length) :
    browserNth ⟨l, i⟩ k = l.getD ((i + k) % l.length) .chromium := by
  induction k generalizing i with
  | zero =>
      simp [browserNth, BrowserPool.getNextBrowser, Nat.mod_eq_of_lt hi]
  | succ k ih =>
      have hpos : 0 < l.length := Nat.lt_of_le_of_lt (Nat.zero_le _) hi
      have h2 : (i + 1) % l.length < l.length := Nat.mod_lt _ hpos
      calc browserNth ⟨l, i⟩ (k + 1)
          = browserNth ⟨l, (i + 1) % l.length⟩ k := by
            simp [browserNth, BrowserPool.getNextBrowser]
        _ = l.getD (((i + 1) % l.length + k) % l.length) .chromium := ih _ h2
        _ = l.getD ((i + k + 1) % l.length) .chromium := by
            rw [Nat.mod_add_mod]
            ring_nf

/-- Round-robin characterization of uaNth from any in-bounds cursor (custom
user-agent mode). -/
theorem uaNth_eq (l : List Str) (bt : BrowserType) (k i : Nat)
    (hi : i < l.length) :
    uaNth ⟨l, i⟩ bt k = l.getD ((i + k) % l.length) [] := by
  induction k generalizing i with
  | zero =>
      have hpos : 0 < l.length := Nat.lt_of_le_of_lt (Nat.zero_le _) hi
      simp [uaNth, UserAgentRotator.getNextUserAgent, hpos,
        Nat.mod_eq_of_lt hi]
  | succ k ih =>
      have hpos : 0 < l.length := Nat.lt_of_le_of_lt (Nat.zero_le _) hi
      have h2 : (i + 1) % l.length < l.length := Nat.mod_lt _ hpos
      calc uaNth ⟨l, i⟩ bt (k + 1)
          = uaNth ⟨l, (i + 1) % l.length⟩ bt k := by
            simp [uaNth, UserAgentRotator.getNextUserAgent, hpos]
        _ = l.getD (((i + 1) % l.length + k) % l.length) [] := ih _ h2
        _ = l.getD ((i + k + 1) % l.length) [] := by
            rw [Nat.mod_add_mod]
            ring_nf

/-- Claim C3: for every non-failure-aware pool built from a non-empty item
list of length N (BrowserPool over browser types, UserAgentRotator over
custom user-agent strings), the k-th call (0-indexed) to the selection
method after construction or reset returns items[k mod N]; construction and
reset both put the cursor at 0, so the pattern repeats identically on every
block of N calls. -/
theorem C3_round_robin (bl : List BrowserType) (ul : List Str)
    (bt : BrowserType) (k i j : Nat) (hb : bl ≠ []) (hu : ul ≠ []) :
    browserNth ⟨bl, 0⟩ k = bl.getD (k % bl.length) .chromium ∧
    uaNth ⟨ul, 0⟩ bt k = ul.getD (k % ul.length) [] ∧
    mkBrowserPool bl = .ok ⟨bl, 0⟩ ∧
    mkUserAgentRotator (some ul) = ⟨ul, 0⟩ ∧
    BrowserPool.reset ⟨bl, i⟩ = ⟨bl, 0⟩ ∧
    UserAgentRotator.reset ⟨ul, j⟩ = ⟨ul, 0⟩ := by
  have hbl : 0 < bl.length := List.length_pos.mpr hb
  have hul : 0 < ul.length := List.length_pos.mpr hu
  refine ⟨?_, ?_, ?_, ?_, rfl, rfl⟩
  · simpa using browserNth_eq bl k 0 hbl
  · simpa using uaNth_eq ul bt k 0 hul
  · simp [mkBrowserPool, List.isEmpty_iff, hb]
  · simp [mkUserAgentRotator, hul]

/-- Witness for C3_round_robin at concrete pools and call index. -/
theorem C3_round_robin_witness :
    ([BrowserType.chrome, BrowserType.edge] ≠ ([] : List BrowserType)) ∧
    (["ua-one".data, "ua-two".data, "ua-three".data] ≠ ([] : List Str)) ∧
    browserNth ⟨[BrowserType.chrome, BrowserType.edge], 0⟩ 5 =
      [BrowserType.chrome, BrowserType.edge].getD (5 % 2) .chromium ∧
    uaNth ⟨["ua-one".data, "ua-two".data, "ua-three".data], 0⟩
        BrowserType.chromium 5 =
      ["ua-one".data, "ua-two".data, "ua-three".data].getD (5 % 3) [] := by
  refine ⟨by decide, by decide, ?_, ?_⟩
  · exact (C3_round_robin [BrowserType.chrome, BrowserType.edge]
      ["ua-one".data, "ua-two".data, "ua-three".data] BrowserType.chromium
      5 0 0 (by decide) (by decide)).1
  · exact (C3_round_robin [BrowserType.chrome, BrowserType.edge]
      ["ua-one".data, "ua-two".data, "ua-three".data] BrowserType.chromium
      5 0 0 (by decide) (by decide)).2.1

/-- Claim C4, as stated, is false on the code: the description
"connection refused" contains the claimed Network marker
"connection refused", so the claim assigns Network, but categorizeError
tests the substring "econnrefused", which does not occur, and no other
marker matches, so the code assigns the default ExecutionEnvironment
(browser) category. -/
theorem C4_counterexample :
    strIncludes "connection refused".data "connection refused".data = true ∧
    categorizeClaimC4 "connection refused".data = ErrorCategory.network ∧
    categorizeError "connection refused".data "error".data =
      ErrorCategory.browser ∧
    ErrorCategory.browser ≠ ErrorCategory.network := by
  refine ⟨by decide, by decide, by decide, by decide⟩

/-- Claim C4 amended: for every lower-cased failure description (and error
name not containing "networkerror"), categorizeError applies the claimed
marker cascade in the claimed priority order with first match winning,
except that the Network markers are "econnrefused" and "enotfound" in place
of the phrases "connection refused" and "not found", and the
ExecutionEnvironment (browser) markers additionally include "playwright";
the default category when no marker matches is ExecutionEnvironment. -/
theorem C4_categorize_cascade (m n : Str)
    (h : strIncludes n "networkerror".data = false) :
    categorizeError m n = categorizeAmendedC4 m := by
  simp only [categorizeError, categorizeAmendedC4, anyMarker, List.any_cons,
    List.any_nil, h, Bool.or_false, Bool.or_assoc]

/-- Witness for C4_categorize_cascade at a concrete description and name. -/
theorem C4_categorize_cascade_witness :
    strIncludes "error".data "networkerror".data = false ∧
    categorizeError "login failed: bad password".data "error".data =
      categorizeAmendedC4 "login failed: bad password".data :=
  ⟨by decide, C4_categorize_cascade "login failed: bad password".data
    "error".data (by decide)⟩

/-- Claim C5: for every category and attempt context, recoverability holds
iff the category is not Configuration and the attempt number is below
maxAttempts, and the action determined by the code (determineAction fed
with isRecoverable, as handleError does) is exactly the action the claim
prescribes: Fatal 1 for non-recoverable Configuration, Skip for any other
non-recoverable case, Retry 30 s for recoverable Authentication, Retry
min(2^attempt, 60) s for recoverable Network, Fallback to the next
environment type for recoverable ExecutionEnvironment while attempt < 3 and
Skip at 3 or more, Skip for recoverable Parsing, and Retry
min(2^attempt, 30) s for recoverable Delivery. -/
theorem C5_action_determination (category : ErrorCategory) (ctx : ErrorContext) :
    (isRecoverable category ctx =
      (decide (category ≠ ErrorCategory.config) &&
       decide (ctx.attempt < ctx.maxAttempts))) ∧
    determineAction category ctx (isRecoverable category ctx) =
      actionClaimC5 category ctx := by
  have hmin60 : min (2 ^ ctx.attempt * 1000) 60000 =
      min (2 ^ ctx.attempt) 60 * 1000 := by
    simpa using min_mul_mul_right (2 ^ ctx.attempt) 60 1000
  have hmin30 : min (2 ^ ctx.attempt * 1000) 30000 =
      min (2 ^ ctx.attempt) 30 * 1000 := by
    simpa using min_mul_mul_right (2 ^ ctx.attempt) 30 1000
  rcases Nat.lt_or_ge ctx.attempt ctx.maxAttempts with hlt | hge
  · cases category <;>
      simp [isRecoverable, determineAction, actionClaimC5, hlt,
        Nat.not_le.mpr hlt, hmin60, hmin30]
  · cases category <;>
      simp [isRecoverable, determineAction, actionClaimC5, hge,
        Nat.not_lt.mpr hge]

/-- The scan loop only ever returns a proxy whose key is not failed. -/
theorem scanNext_not_failed (proxies : List ProxyConfig) (failed : List Str)
    (q : ProxyConfig) :
    ∀ idx fuel, (scanNext proxies failed idx fuel).1 = some q →
      getProxyKey q ∉ failed := by
  intro idx fuel
  induction fuel generalizing idx with
  | zero => simp [scanNext]
  | succ fuel ih =>
      simp only [scanNext]
      split
      · exact ih _
      · intro h
        rename_i hnot
        cases h
        exact hnot

/-- getNextProxy only ever returns a proxy whose key is not failed. -/
theorem getNextProxy_not_failed (r : ProxyRotator) (q : ProxyConfig)
    (h : r.getNextProxy.1 = some q) : getProxyKey q ∉ r.failedProxies := by
  unfold ProxyRotator.getNextProxy at h
  split at h
  · simp at h
  · split at h
    · simp at h
    · exact scanNext_not_failed r.proxies r.failedProxies q r.currentIndex
        r.proxies.length h

/-- getNextProxy does not change the failed set. -/
theorem getNextProxy_failed_set (r : ProxyRotator) :
    r.getNextProxy.2.failedProxies = r.failedProxies := by
  unfold ProxyRotator.getNextProxy
  split
  · rfl
  · split <;> rfl

/-- Once a key is failed it stays failed across selections and further
marks. -/
theorem runRotOps_failed_mono (k : Str) (ops : List RotOp) :
    ∀ r : ProxyRotator, k ∈ r.failedProxies →
      k ∈ (runRotOps r ops).failedProxies := by
  induction ops with
  | nil => intro r h; exact h
  | cons op ops ih =>
      intro r h
      refine ih _ ?_
      cases op with
      | getNext => rw [applyRotOp, getNextProxy_failed_set]; exact h
      | markFailed p =>
          rw [applyRotOp]
          unfold ProxyRotator.markProxyFailed
          split
          · exact h
          · exact List.mem_cons_of_mem _ h

/-- Marking a proxy failed puts its key into the failed set. -/
theorem markProxyFailed_mem (r : ProxyRotator) (p : ProxyConfig) :
    getProxyKey p ∈ (r.markProxyFailed p).failedProxies := by
  unfold ProxyRotator.markProxyFailed
  split
  · assumption
  · exact List.mem_cons_self _ _

/-- Claim C2: after markProxyFailed(p), no later getNextProxy call — across
any interleaving of further selections and failure marks, short of
resetFailures — returns an item with the same derived identity (server plus
optional username) as p; and when every item in the pool has a failed key,
or the pool is empty, getNextProxy returns null. -/
theorem C2_failure_exclusion (r : ProxyRotator) (p q : ProxyConfig)
    (ops : List RotOp) :
    ((runRotOps (r.markProxyFailed p) ops).getNextProxy.1 = some q →
      getProxyKey q ≠ getProxyKey p) ∧
    ((∀ x ∈ r.proxies, getProxyKey x ∈ r.failedProxies) →
      r.getNextProxy.1 = none) ∧
    (r.proxies = [] → r.getNextProxy.1 = none) := by
  refine ⟨?_, ?_, ?_⟩
  · intro h heq
    have hmem : getProxyKey p ∈
        (runRotOps (r.markProxyFailed p) ops).failedProxies :=
      runRotOps_failed_mono _ ops _ (markProxyFailed_mem r p)
    have hnot := getNextProxy_not_failed _ q h
    rw [heq] at hnot
    exact hnot hmem
  · intro hall
    unfold ProxyRotator.getNextProxy
    split
    · rfl
    · simp only [List.isEmpty_iff, List.filter_eq_nil_iff, decide_eq_true_eq,
        Decidable.not_not]
      rw [if_pos hall]
  · intro hemp
    unfold ProxyRotator.getNextProxy
    simp [hemp]

/-- Witness for C2_failure_exclusion: a two-proxy pool where alpha is marked
failed and the next selection returns beta; an all-failed pool and the empty
pool both yield null. -/
theorem C2_failure_exclusion_witness :
    (getProxyKey ⟨"beta".data, none⟩ ≠ getProxyKey ⟨"alpha".data, none⟩) ∧
    (ProxyRotator.getNextProxy
      ⟨[⟨"alpha".data, none⟩, ⟨"beta".data, none⟩], 0,
        ["alpha:".data, "beta:".data]⟩).1 = none ∧
    (mkProxyRotator []).getNextProxy.1 = none := by
  refine ⟨?_, ?_, ?_⟩
  · exact (C2_failure_exclusion
      (mkProxyRotator [⟨"alpha".data, none⟩, ⟨"beta".data, none⟩])
      ⟨"alpha".data, none⟩ ⟨"beta".data, none⟩ []).1 (by decide)
  · exact (C2_failure_exclusion
      ⟨[⟨"alpha".data, none⟩, ⟨"beta".data, none⟩], 0,
        ["alpha:".data, "beta:".data]⟩
      ⟨"alpha".data, none⟩ ⟨"beta".data, none⟩ []).2.1 (by decide)
  · exact (C2_failure_exclusion (mkProxyRotator [])
      ⟨"alpha".data, none⟩ ⟨"beta".data, none⟩ []).2.2 rfl

/-- Behaviour of the retry loop when every remaining attempt fails: every
attempt event appears, a sleep follows each attempt that is not the last
permitted one, and the loop ends by throwing the failure with the bound and
the last attempt's error. -/
theorem runAttempts_allFail (outcome : Nat → Option Str) (A : Nat)
    (hfail : ∀ i, (outcome i).isSome) :
    ∀ n s last, s + n = A + 1 →
      runAttempts outcome A (List.range' s n) last =
        ((List.range' s n).flatMap (fun a => WebhookEvent.attempt a ::
            if a < A then [WebhookEvent.sleep (calculateBackoff a)] else []),
         .error ⟨A, if n = 0 then last else outcome A⟩) := by
  intro n
  induction n with
  | zero =>
      intro s last h
      simp [runAttempts]
  | succ n ih =>
      intro s last h
      obtain ⟨e, he⟩ := Option.isSome_iff_exists.mp (hfail s)
      have herr : (if n = 0 then some e else outcome A) = outcome A := by
        split
        · have hsA : s = A := by omega
          rw [← hsA, he]
        · rfl
      rw [List.range'_succ]
      by_cases hs : s < A <;>
        simp [runAttempts, he, ih (s + 1) (some e) (by omega), herr, hs]

/-- Behaviour of the retry loop when attempts before k fail and attempt k
succeeds: the loop performs attempts s..k with the backoff sleeps between
them and returns successfully right at attempt k. -/
theorem runAttempts_success (outcome : Nat → Option Str) (A : Nat) :
    ∀ n s last k, s ≤ k → k < s + n →
      (∀ i, s ≤ i → i < k → (outcome i).isSome) → outcome k = none →
      runAttempts outcome A (List.range' s n) last =
        ((List.range' s (k - s)).flatMap (fun a => WebhookEvent.attempt a ::
            if a < A then [WebhookEvent.sleep (calculateBackoff a)] else [])
          ++ [WebhookEvent.attempt k],
         .ok ()) := by
  intro n
  induction n with
  | zero =>
      intro s last k h1 h2
      omega
  | succ n ih =>
      intro s last k h1 h2 hpre hk
      rw [List.range'_succ]
      by_cases hs : s = k
      · subst hs
        simp [runAttempts, hk]
      · have hsk : s < k := lt_of_le_of_ne h1 hs
        obtain ⟨e, he⟩ := Option.isSome_iff_exists.mp
          (hpre s (le_refl s) hsk)
        have trec := ih (s + 1) (some e) k (by omega) (by omega)
          (fun i hi1 hi2 => hpre i (by omega) hi2) hk
        have hks : k - s = (k - (s + 1)) + 1 := by omega
        rw [hks, List.range'_succ]
        by_cases hA : s < A <;>
          simp [runAttempts, he, trec, hA]

/-- Attempt and sleep counts of the claimed trace shape. -/
theorem claimTrace_counts (total : Nat) :
    ∀ n s, (((List.range' s n).flatMap (fun a => WebhookEvent.attempt a ::
        if a < total then [WebhookEvent.sleep (2 ^ (a - 1) * 1000)] else
          [])).countP isAttemptEv = n ∧
      ((List.range' s n).flatMap (fun a => WebhookEvent.attempt a ::
        if a < total then [WebhookEvent.sleep (2 ^ (a - 1) * 1000)] else
          [])).countP isSleepEv =
        (List.range' s n).countP (fun a => decide (a < total))) := by
  intro n
  induction n with
  | zero => intro s; simp
  | succ n ih =>
      intro s
      rw [List.range'_succ]
      rcases ih (s + 1) with ⟨iha, ihs⟩
      by_cases hs : s < total <;>
        simp [List.countP_cons, iha, ihs, isAttemptEv, isSleepEv, hs,
          Nat.add_comm]

/-- Among the attempt numbers 1..A, all but the last are below A. -/
theorem countP_range'_lt (A : Nat) :
    (List.range' 1 A).countP (fun a => decide (a < A)) = A - 1 := by
  induction A with
  | zero => simp
  | succ A ih =>
      rw [List.range'_concat, List.countP_append]
      have hall : (List.range' 1 A).countP (fun a => decide (a < A + 1)) =
          A := by
        have : ∀ a ∈ List.range' 1 A, (fun a => decide (a < A + 1)) a =
            true := by
          intro a ha
          have := List.mem_range'_1.mp ha
          simp
          omega
        rw [List.countP_eq_length.mpr this, List.length_range']
      simp [hall]
      omega

/-- Claim C6: for maxAttempts = A at least 1 and an endpoint failing every
attempt, sendWithRetry performs exactly A attempts with a sleep of
2^(attempt-1) seconds after each failed attempt except the last — the full
event trace is attempt 1, sleep 1 s, attempt 2, sleep 2 s, ..., attempt A —
and then throws a delivery failure carrying the attempt count A and the
last error; and when the attempts before k fail and attempt k succeeds
(k ≤ A), the run returns successfully right at attempt k with no further
attempts or sleeps. -/
theorem C6_delivery_retry (A : Nat) (outcome : Nat → Option Str)
    (hA : 1 ≤ A) :
    ((∀ i, (outcome i).isSome) →
      sendWithRetry outcome A = (claimTraceC6 A A, .error ⟨A, outcome A⟩) ∧
      (claimTraceC6 A A).countP isAttemptEv = A ∧
      (claimTraceC6 A A).countP isSleepEv = A - 1) ∧
    (∀ k, 1 ≤ k → k ≤ A → (∀ i, i < k → (outcome i).isSome) →
      outcome k = none →
      sendWithRetry outcome A =
        (claimTraceC6 (k - 1) A ++ [WebhookEvent.attempt k], .ok ())) := by
  constructor
  · intro hfail
    have h0 : A ≠ 0 := by omega
    refine ⟨?_, ?_, ?_⟩
    · have hall := runAttempts_allFail outcome A hfail A 1 none (by omega)
      rw [sendWithRetry, hall]
      simp [claimTraceC6, calculateBackoff, h0]
    · simpa [claimTraceC6] using (claimTrace_counts A A 1).1
    · rw [show (claimTraceC6 A A).countP isSleepEv =
          (List.range' 1 A).countP (fun a => decide (a < A)) from
          by simpa [claimTraceC6] using (claimTrace_counts A A 1).2]
      exact countP_range'_lt A
  · intro k hk1 hkA hpre hkn
    have hsucc := runAttempts_success outcome A A 1 none k (by omega)
      (by omega) (fun i _ hi2 => hpre i hi2) hkn
    rw [sendWithRetry, hsucc]
    simp [claimTraceC6, calculateBackoff]

/-- Witness for C6_delivery_retry: an always-failing endpoint at A = 3, and
an endpoint that fails once and succeeds at attempt 2. -/
theorem C6_delivery_retry_witness :
    (∀ i, ((fun _ => some "boom".data : Nat → Option Str) i).isSome) ∧
    sendWithRetry (fun _ => some "boom".data) 3 =
      (claimTraceC6 3 3, .error ⟨3, some "boom".data⟩) ∧
    sendWithRetry (fun i => if i < 2 then some "late".data else none) 3 =
      (claimTraceC6 1 3 ++ [WebhookEvent.attempt 2], .ok ()) := by
  refine ⟨fun _ => rfl, ?_, ?_⟩
  · exact ((C6_delivery_retry 3 (fun _ => some "boom".data)
      (by omega)).1 (fun _ => rfl)).1
  · exact (C6_delivery_retry 3
      (fun i => if i < 2 then some "late".data else none) (by omega)).2
      2 (by omega) (by omega) (fun i hi => by simp [hi]) (by simp)

/-- Claim C10: a configured retryAttempts of 0 is falsy, so send uses the
default of 3 attempts, exactly as when retryAttempts is absent: against an
always-failing endpoint, send with retryAttempts 0 performs exactly 3
attempts, ends with the failure reporting 3 attempts, and behaves
identically to the absent-configuration case. -/
theorem C10_zero_retry_default (outcome : Nat → Option Str) (url : Str)
    (hfail : ∀ i, (outcome i).isSome) :
    effectiveRetryAttempts ⟨url, some 0⟩ = 3 ∧
    effectiveRetryAttempts ⟨url, none⟩ = 3 ∧
    (send outcome ⟨url, some 0⟩).1.countP isAttemptEv = 3 ∧
    (send outcome ⟨url, some 0⟩).2 = .error ⟨3, outcome 3⟩ ∧
    send outcome ⟨url, some 0⟩ = send outcome ⟨url, none⟩ := by
  have hall := runAttempts_allFail outcome 3 hfail 3 1 none (by omega)
  refine ⟨rfl, rfl, ?_, ?_, rfl⟩
  · show (sendWithRetry outcome 3).1.countP isAttemptEv = 3
    rw [sendWithRetry, hall]
    simpa [calculateBackoff] using (claimTrace_counts 3 3 1).1
  · show (sendWithRetry outcome 3).2 = .error ⟨3, outcome 3⟩
    rw [sendWithRetry, hall]
    simp

/-- Witness for C10_zero_retry_default at a concrete endpoint. -/
theorem C10_zero_retry_default_witness :
    (∀ i, ((fun _ => some "boom".data : Nat → Option Str) i).isSome) ∧
    effectiveRetryAttempts ⟨"endpoint".data, some 0⟩ = 3 ∧
    (send (fun _ => some "boom".data) ⟨"endpoint".data, some 0⟩).1.countP
      isAttemptEv = 3 := by
  refine ⟨fun _ => rfl, ?_, ?_⟩
  · exact (C10_zero_retry_default (fun _ => some "boom".data)
      "endpoint".data (fun _ => rfl)).1
  · exact (C10_zero_retry_default (fun _ => some "boom".data)
      "endpoint".data (fun _ => rfl)).2.2.1

/-- With a check in flight, every guard evaluation is rejected with the
already-in-progress failure and the flag stays set. -/
theorem startMany_inProgress (m : Nat) :
    startMany true m = (true, List.replicate m
      (some ⟨false, some "Check already in progress".data⟩)) := by
  induction m with
  | zero => rfl
  | succ m ih =>
      simp [startMany, executeCheckEnter, ih, List.replicate_succ]

/-- Claim C1: among n ≥ 2 executeCheck invocations against one engine while
one is in flight, exactly the first (in-flight) one enters and runs the
body, every other returns immediately with success false and the error
message "Check already in progress" without running the body, the flag is
set the whole time, and on exit of the entered call — body success or body
failure alike — the flag is cleared unconditionally so the next invocation
enters. -/
theorem C1_overlap_guard (n : Nat) (b : Except Str Unit) (hn : 2 ≤ n) :
    (startMany false n).2 = none :: List.replicate (n - 1)
      (some ⟨false, some "Check already in progress".data⟩) ∧
    (startMany false n).1 = true ∧
    ((startMany false n).2.countP (fun o => o.isNone)) = 1 ∧
    (executeCheckExit b).2 = false ∧
    (executeCheckEnter (executeCheckExit b).2).2 = none := by
  obtain ⟨m, rfl⟩ : ∃ m, n = m + 1 := ⟨n - 1, by omega⟩
  refine ⟨?_, ?_, ?_, ?_, ?_⟩
  · simp [startMany, executeCheckEnter, startMany_inProgress]
  · simp [startMany, executeCheckEnter, startMany_inProgress]
  · have hz : (List.replicate m
        (some (⟨false, some "Check already in progress".data⟩ :
          CheckResult))).countP (fun o => o.isNone) = 0 := by
      apply List.countP_eq_zero.mpr
      intro a ha
      rw [List.eq_of_mem_replicate ha]
      simp
    simp [startMany, executeCheckEnter, startMany_inProgress,
      List.countP_cons, hz]
  · cases b <;> rfl
  · cases b <;> rfl

/-- Witness for C1_overlap_guard: three invocations with one in flight, and
a failing body. -/
theorem C1_overlap_guard_witness :
    (startMany false 3).2 = none :: List.replicate 2
      (some ⟨false, some "Check already in progress".data⟩) ∧
    (executeCheckExit (.error "boom".data)).2 = false ∧
    (executeCheckEnter (executeCheckExit (.error "boom".data)).2).2 =
      none := by
  have h := C1_overlap_guard 3 (.error "boom".data) (by omega)
  exact ⟨h.1, h.2.2.2.1, h.2.2.2.2⟩

/-- Claim C7: when the webhook delivery step of a cycle throws after its
internal retries and every other step succeeds, performCheck catches the
delivery failure (the inner catch hands it to the error handler), still
executes the logout step and the session-release step of the finally block,
and finishes without a failure of its own — the cycle is not failed on
account of delivery alone. -/
theorem C7_webhook_failure_contained (c : CollabOutcomes) (e : Str)
    (h1 : c.createSession = .ok ()) (h2 : c.login = .ok ())
    (h3 : c.navigate = .ok ()) (h4 : c.scrape = .ok ())
    (h5 : c.webhookConfigured = true) (h6 : 0 < c.parsedCount)
    (h7 : c.webhookSend = .error e) (h8 : c.logout = .ok ()) :
    (performCheck c).2 = .ok () ∧
    Step.logout ∈ (performCheck c).1 ∧
    Step.closeSession ∈ (performCheck c).1 ∧
    Step.handleWebhookError ∈ (performCheck c).1 := by
  simp [performCheck, h1, h2, h3, h4, h5, h6, h7, h8]

/-- Witness for C7_webhook_failure_contained at concrete step outcomes. -/
theorem C7_webhook_failure_contained_witness :
    (performCheck ⟨.ok (), .ok (), .ok (), .ok (), 2, true,
      .error "boom".data, .ok ()⟩).2 = .ok () ∧
    Step.logout ∈ (performCheck ⟨.ok (), .ok (), .ok (), .ok (), 2, true,
      .error "boom".data, .ok ()⟩).1 ∧
    Step.closeSession ∈ (performCheck ⟨.ok (), .ok (), .ok (), .ok (), 2,
      true, .error "boom".data, .ok ()⟩).1 := by
  have h := C7_webhook_failure_contained
    ⟨.ok (), .ok (), .ok (), .ok (), 2, true, .error "boom".data, .ok ()⟩
    "boom".data rfl rfl rfl rfl rfl (by decide) rfl rfl
  exact ⟨h.1, h.2.1, h.2.2.1⟩

/-- Claim C8, as stated, is false on the code: with the requested interval
exactly at the default minimum but an empty browser list, the constructor
still throws, because it instantiates the BrowserPool, whose constructor
rejects an empty list. -/
theorem C8_counterexample :
    effectiveMinInterval ⟨300000, none⟩ ≤ 300000 ∧
    mkScheduler ⟨300000, none⟩ ⟨[], none, false, [], none⟩ =
      .error .emptyBrowserPool :=
  ⟨by decide, rfl⟩

/-- Claim C8 amended: construction fails with a configuration error
whenever the requested interval is below the effective minimum (the
configured minimum, default 300000 ms), and construction with interval at
or above the minimum succeeds provided the browser list is non-empty. -/
theorem C8_construction (cfg : SchedulerConfig) (sys : SystemConfig) :
    (cfg.interval < effectiveMinInterval cfg →
      mkScheduler cfg sys =
        .error (.intervalTooSmall (effectiveMinInterval cfg))) ∧
    (effectiveMinInterval cfg ≤ cfg.interval → sys.browsers ≠ [] →
      exceptIsOk (mkScheduler cfg sys) = true) := by
  constructor
  · intro h
    simp [mkScheduler, h]
  · intro h hb
    have hnot : ¬ cfg.interval < effectiveMinInterval cfg := by omega
    simp [mkScheduler, hnot, mkBrowserPool, List.isEmpty_iff, hb,
      exceptIsOk]

/-- Witness for C8_construction: a too-small interval fails, and the
minimum interval with a one-browser pool succeeds. -/
theorem C8_construction_witness :
    (299999 < effectiveMinInterval ⟨299999, none⟩) ∧
    mkScheduler ⟨299999, none⟩ ⟨[.chromium], none, false, [], none⟩ =
      .error (.intervalTooSmall 300000) ∧
    ([BrowserType.chromium] ≠ ([] : List BrowserType)) ∧
    exceptIsOk (mkScheduler ⟨300000, none⟩
      ⟨[.chromium], none, false, [], none⟩) = true := by
  refine ⟨by decide, ?_, by decide, ?_⟩
  · exact (C8_construction ⟨299999, none⟩
      ⟨[.chromium], none, false, [], none⟩).1 (by decide)
  · exact (C8_construction ⟨300000, none⟩
      ⟨[.chromium], none, false, [], none⟩).2 (by decide) (by decide)

/-- Claim C9, as stated, is false on the code: with interval 300000 ms and
a first cycle that takes 5 ms to execute, the second cycle fires at
300005 ms — interval after the first cycle's execution completed — not at
300000 ms, interval after the first cycle was scheduled to run, because
the timer for the next cycle is armed only after executeCheck has been
awaited. -/
theorem C9_counterexample :
    startFireTimes 300000 0 [5] = [0, 300005] ∧
    claimFireTimesC9 300000 0 [5] = [0, 300000] ∧
    startFireTimes 300000 0 [5] ≠ claimFireTimesC9 300000 0 [5] :=
  ⟨rfl, rfl, by decide⟩

/-- Claim C9 amended: after start, the first cycle is scheduled with zero
delay at t0, each subsequent cycle is scheduled to run exactly interval
after the previous cycle's execution completed (the moment of the
rescheduling decision, made after awaiting the cycle), and a set stopped
flag makes scheduleNextCheck arm no timer at all. -/
theorem C9_scheduling (interval t0 : Nat) (durations : List Nat) :
    startFireTimes interval t0 durations =
      amendedFireTimesC9 interval t0 durations ∧
    (startFireTimes interval t0 durations).head? = some t0 ∧
    (∀ now delay, scheduleNextCheck true now delay = none) := by
  have key : ∀ ds fire, fireTimesFrom interval fire ds =
      amendedFireTimesC9 interval fire ds := by
    intro ds
    induction ds with
    | nil => intro fire; rfl
    | cons d ds ih =>
        intro fire
        simp [fireTimesFrom, amendedFireTimesC9, scheduleNextCheck, ih]
  refine ⟨?_, ?_, fun now delay => rfl⟩
  · simp [startFireTimes, scheduleNextCheck, key]
  · rw [startFireTimes]
    simp only [scheduleNextCheck, if_neg Bool.false_ne_true, Nat.add_zero]
    rw [key]
    cases durations <;> simp [amendedFireTimesC9]

end BCA
